import Mathlib

/-!
# antcn (PRAO RT-22 antenna client): embedding of `src/antcn.c`

The file embeds the two functions of `antcn.c`:

* `rt22msg`, one request/reply exchange with the antenna controller over TCP;
* one pass of the `Continue: ... End: ... goto Continue` loop of `main`, from the
  return of `skd_wait` to the jump back to it (`main_pass`), and the loop over a
  sequence of calls (`main_loop`).

Conventions.
* A C string is the list of its characters before the terminating NUL.
* C `int` values are `Int`; no arithmetic of the program leaves the `int` range
  (`nrecr` counts up to `nrec`).
* C `double` values are `CDouble`: sign, integer mantissa and binary exponent, or an
  infinity or a NaN.  `printf_f` is the `%.<p>f` conversion of the C library: the exact
  value rounded to `p` decimals (ties to even).
* The outside world (network, host message classes) is an `Env` of responses, indexed by
  the number of the call within the pass.  Every call is recorded as an `Event`.
* Text buffers are modelled by their contents; whether a text fits its destination
  array is not part of `main_pass` and is stated apart (`fits`, `Rt22Ret.inBounds`,
  `bfText`).
-/

namespace Antcn

/-! ## C doubles and the `%.32f` conversion -/

/-- A C `double`: `fin neg man e` is `(-1)^neg * man * 2^e`. -/
inductive CDouble where
  | fin (neg : Bool) (man : Nat) (e : Int)
  | inf (neg : Bool)
  | nan (neg : Bool)
  deriving DecidableEq, Repr

/-- Round the quotient `n / d` to the nearest natural number, ties to even. -/
def roundDiv (n d : Nat) : Nat :=
  let q := n / d
  let r := n % d
  if 2 * r < d then q
  else if d < 2 * r then q + 1
  else if q % 2 = 0 then q else q + 1

/-- The value `man * 2^e * 10^p` rounded to the nearest natural number, ties to even. -/
def scaled (man : Nat) (e : Int) (p : Nat) : Nat :=
  match e with
  | Int.ofNat k => man * 2 ^ k * 10 ^ p
  | Int.negSucc k => roundDiv (man * 10 ^ p) (2 ^ (k + 1))

/-- The decimal digit character of `n % 10`. -/
def digitChar (n : Nat) : Char := Char.ofNat (48 + n % 10)

/-- The last `w` decimal digits of `n`, most significant first, zero padded. -/
def fixedDigits : Nat → Nat → List Char
  | 0, _ => []
  | w + 1, n => fixedDigits w (n / 10) ++ [digitChar n]

/-- Decimal digits of `n` without leading zeros, accumulated in front of `acc`
(`fuel` bounds the number of digits). -/
def natDigitsAux : Nat → Nat → List Char → List Char
  | 0, _, acc => acc
  | fuel + 1, n, acc =>
    if n < 10 then digitChar n :: acc
    else natDigitsAux fuel (n / 10) (digitChar n :: acc)

/-- Decimal digits of `n` (`%d` of a non-negative value). -/
def natDigits (n : Nat) : List Char := natDigitsAux (n + 1) n []

/-- The conversion `%d` of an `int`. -/
def printf_d (i : Int) : List Char :=
  match i with
  | Int.ofNat n => natDigits n
  | Int.negSucc n => '-' :: natDigits (n + 1)

/-- The conversion `%.<p>f` of a `double`. -/
def printf_f (p : Nat) : CDouble → List Char
  | .fin neg man e =>
    let n := scaled man e p
    (if neg then ['-'] else []) ++ natDigits (n / 10 ^ p)
      ++ (if p = 0 then [] else '.' :: fixedDigits p (n % 10 ^ p))
  | .inf neg => (if neg then ['-'] else []) ++ "inf".toList
  | .nan neg => (if neg then ['-'] else []) ++ "nan".toList

/-- The call `snprintf(buf, size, ...)`: the buffer receives at most `size - 1`
characters of the converted text. -/
def snprintf (size : Nat) (text : List Char) : List Char := text.take (size - 1)

/-! ### Arithmetic of doubles used by the constants of mode 0 -/

/-- The number of halvings that bring `n` down to 1 or 0, with `fuel` bounding the
count. -/
def log2Aux : Nat → Nat → Nat
  | 0, _ => 0
  | fuel + 1, n => if n < 2 then 0 else log2Aux fuel (n / 2) + 1

/-- The binary logarithm of `n`, rounded down (0 for 0). -/
def log2 (n : Nat) : Nat := log2Aux n n

/-- The double nearest to the positive rational `n / d` (53 significant bits, ties to
even), as mantissa and exponent. The values used here are far from the limits of the
exponent range. -/
def roundRat (n d : Nat) : Nat × Int :=
  let e : Int := (log2 n : Int) - (log2 d : Int) - 53
  -- `n / (d * 2^e)` lies between `2^52` and `2^54`; bring it below `2^53`
  let q (e : Int) : Nat :=
    match e with
    | Int.ofNat k => n / (d * 2 ^ k)
    | Int.negSucc k => n * 2 ^ (k + 1) / d
  let e := if q e < 2 ^ 53 then e else if q (e + 1) < 2 ^ 53 then e + 1 else e + 2
  match e with
  | Int.ofNat k => (roundDiv n (d * 2 ^ k), e)
  | Int.negSucc k => (roundDiv (n * 2 ^ (k + 1)) d, e)

/-- The exact value of a finite double as a fraction `(numerator, denominator)`. -/
def fracOf (man : Nat) (e : Int) : Nat × Nat :=
  match e with
  | Int.ofNat k => (man * 2 ^ k, 1)
  | Int.negSucc k => (man, 2 ^ (k + 1))

/-- An `int` converted to `double` (exact for the small values used here). -/
def ofInt (i : Int) : CDouble := .fin (decide (i < 0)) i.natAbs 0

/-- Negation of a double. -/
def dneg : CDouble → CDouble
  | .fin s m e => .fin (!s) m e
  | .inf s => .inf (!s)
  | .nan s => .nan (!s)

/-- Product of two finite nonzero doubles (other operands do not occur in `antcn.c`). -/
def dmul : CDouble → CDouble → CDouble
  | .fin s1 m1 e1, .fin s2 m2 e2 =>
    let a := fracOf m1 e1
    let b := fracOf m2 e2
    let r := roundRat (a.1 * b.1) (a.2 * b.2)
    .fin (xor s1 s2) r.1 r.2
  | _, _ => .nan false

/-- Quotient of two finite nonzero doubles (other operands do not occur in `antcn.c`). -/
def ddiv : CDouble → CDouble → CDouble
  | .fin s1 m1 e1, .fin s2 m2 e2 =>
    let a := fracOf m1 e1
    let b := fracOf m2 e2
    let r := roundRat (a.1 * b.2) (a.2 * b.1)
    .fin (xor s1 s2) r.1 r.2
  | _, _ => .nan false

/-- The constant `M_PI` of `math.h`: the double nearest to pi, `0x400921FB54442D18`. -/
def M_PI : CDouble := .fin false 7074237752028440 (-51)

/-! ## The device link: `rt22msg` -/

/-- The NUL character. -/
def NUL : Char := Char.ofNat 0

/-- The C string held by an array of bytes: the bytes before the first NUL. -/
def cstr (bytes : List Char) : List Char := bytes.takeWhile (fun c => c ≠ NUL)

/-- What the network does during one call of `rt22msg` that returns: the first system
call that fails, or the bytes that `recv` delivers. A call that never returns (no
timeout is set on the socket) is not an outcome here; `Hangs` describes it. -/
inductive Net where
  | socketFails
  | connectFails
  | sendFails
  | recvFails
  | recvGives (data : List Char)
  deriving DecidableEq, Repr

/-- The system calls made by `rt22msg`. -/
inductive Sys where
  | socket
  | connect
  | send (msg : List Char)
  | recv (size : Nat)
  | close
  deriving DecidableEq, Repr

/-- The outcome of a call of `rt22msg`: the C string in `bf` on return, the system
calls made, and whether every access to `bf` stayed inside its 512 bytes. -/
structure Rt22Ret where
  text : List Char
  sys : List Sys
  inBounds : Bool
  deriving DecidableEq, Repr

/-- Embedding of `rt22msg`. `bf` is zeroed on entry; `recv(sock, bf, 512, 0)` stores at
most 512 bytes at its start; then `bf[strlen(bf) - 1] = 0`. With an empty string in `bf`
the store goes to `bf[-1]`, and with 512 bytes and no NUL `strlen` runs past the array:
`inBounds` is false in both cases (the text is then the one obtained when the byte after
`bf` is NUL). Only the last branch reaches `close(sock)`. -/
def rt22msg (msg : List Char) : Net → Rt22Ret
  | .socketFails =>
    ⟨"WARNING: Unable to create a Socket!\n".toList, [.socket], true⟩
  | .connectFails =>
    ⟨"WARNING: Socket connection error!\n".toList, [.socket, .connect], true⟩
  | .sendFails =>
    ⟨"WARNING: Sending failed!\n".toList, [.socket, .connect, .send (cstr msg)], true⟩
  | .recvFails =>
    ⟨"WARNING: Receiving failed!\n".toList,
      [.socket, .connect, .send (cstr msg), .recv 512], true⟩
  | .recvGives data =>
    let bf := cstr (data.take 512)
    ⟨bf.dropLast, [.socket, .connect, .send (cstr msg), .recv 512, .close],
      decide (0 < bf.length ∧ bf.length < 512)⟩

/-! ## The dispatcher: one pass of the loop of `main` -/

/-- The lowest mode handled. -/
def MINMODE : Int := 0

/-- The highest mode handled. -/
def MAXMODE : Int := 10

/-- The array `ip[5]` exchanged with the host through `skd_wait`. The fourth word is
kept as its four bytes in memory order, since `End:` stores two characters into it. -/
structure Ip where
  w0 : Int
  w1 : Int
  w2 : Int
  w3 : List Char
  w4 : Int
  deriving DecidableEq, Repr

/-- The fields of the shared memory `fs` used by `antcn.c` (`fscom.h` is not part of the
sources; the numeric fields are taken at the `double` value passed to `snprintf`). -/
structure Fscom where
  lsorna : List Char
  ra50 : CDouble
  dec50 : CDouble
  AZOFF : CDouble
  ELOFF : CDouble
  ionsor : Int
  deriving DecidableEq, Repr

/-- A message delivered by `cls_rcv`: the returned character count and the bytes stored
in `buf`. -/
structure ClsMsg where
  nchar : Int
  bytes : List Char
  deriving DecidableEq, Repr

/-- The responses of the outside world during one pass: `net k` is what the network does
during the `k`-th call of `rt22msg`, `rcv k` is what the `k`-th `cls_rcv` delivers, and
`snd k c` is the class number that the `k`-th `cls_snd` leaves in `clasr` when it held
`c`. -/
structure Env where
  net : Nat → Net
  rcv : Nat → ClsMsg
  snd : Nat → Int → Int

/-- The calls and stores of a pass that are visible outside `main`. -/
inductive Event where
  | logit (text : List Char)
  | rt22msg (msg : List Char) (net : Net)
  | cls_rcv (cls : Int) (size : Nat)
  | cls_snd (cls : Int) (text : List Char) (nchars : Nat)
  | ionsor (v : Int)
  | ip_out (ip : Ip)
  deriving DecidableEq, Repr

/-- The variables of `main` that keep their storage from one pass to the next and are
not assigned on every path: `ierr`, and `csp` and `cend`, which are declared and set
inside `case 0` but also read in `case 1` and `case 2`. Before the first store their
contents are whatever the stack holds. Between two passes they are
taken to keep their contents: an overrun of a neighbouring array (`snm`, `st0`,
`conntest`) into them is not followed. -/
structure Locals where
  ierr : Int
  csp : List Char
  cend : List Char
  deriving DecidableEq, Repr

/-- The variables of `main` during a pass, with the shared memory. -/
structure Frame where
  ierr : Int
  nrecr : Int
  clasr : Int
  csp : List Char
  cend : List Char
  fs : Fscom

/-- The call `logit(text, 0, NULL)`. -/
def logit (text : List Char) : List Event := [.logit text]

/-- The statements `strcpy(conntest, rt22msg(msg)); logit(conntest);`, as the `k`-th
exchange of the pass: the call of `rt22msg` and the logging of the string it returns.
The copy into `conntest[512]` (`rtsrc[512]` in `case 1`) is modelled by the text alone:
it stays inside the array when `rt22msg` stayed inside `bf` (`traceInBounds`), and is
not followed into the frame of `main` otherwise. -/
def exchLog (env : Env) (k : Nat) (msg : List Char) : List Event :=
  [.rt22msg msg (env.net k), .logit (rt22msg msg (env.net k)).text]

/-- The statements `strcpy(buf, title); logit(buf); strcpy(conntest, rt22msg(msg));
logit(conntest);` of `case 0`. -/
def query (env : Env) (k : Nat) (title msg : List Char) : List Event :=
  logit title ++ exchLog env k msg

/-- The double `-(580 * M_PI) / 648000` of `case 0`. -/
def fl_a : CDouble := ddiv (dneg (dmul (ofInt 580) M_PI)) (ofInt 648000)

/-- The double `(530 * M_PI) / 648000` of `case 0`. -/
def fl_h : CDouble := ddiv (dmul (ofInt 530) M_PI) (ofInt 648000)

/-- The double `(580 * M_PI) / 648000` of `case 0`. -/
def fr_a : CDouble := ddiv (dmul (ofInt 580) M_PI) (ofInt 648000)

/-- The double `(530 * M_PI) / 648000` of `case 0`. -/
def fr_h : CDouble := ddiv (dmul (ofInt 530) M_PI) (ofInt 648000)

/-- The `int` `ilrb = -1` of `case 0`. -/
def ilrb : Int := -1

/-- The double `(40 * M_PI) / 648000` of `case 0`. -/
def rerror : CDouble := ddiv (dmul (ofInt 40) M_PI) (ofInt 648000)

/-- The string `crcom` built in `case 0` with the separator `csp` and the line end
`cend`. -/
def crcom (csp cend : List Char) : List Char :=
  "SET_RUPORS ".toList
    ++ snprintf 32 (printf_f 32 fl_a) ++ csp
    ++ snprintf 32 (printf_f 32 fl_h) ++ csp
    ++ snprintf 32 (printf_f 32 fr_a) ++ csp
    ++ snprintf 32 (printf_f 32 fr_h) ++ csp
    ++ snprintf 3 (printf_d ilrb) ++ csp
    ++ snprintf 32 (printf_f 32 rerror) ++ cend

/-- The body of `case 0` (initialize): the frame at `break` and the events in order.
`csp` and `cend` are set on the way; the string returned for `crcom` is not used. -/
def case0 (env : Env) (f : Frame) : Frame × List Event :=
  ({ f with ierr := 0, csp := " ".toList, cend := "\r\n".toList,
            fs := { f.fs with ionsor := 0 } },
    logit "Initializing PRAO RT-22 Antenna Interface...".toList
    ++ query env 0 "Sending message to RT-22 Antenna...".toList
        "SEND_MESSG RT-22 Antenna Field System Client Is Connected.\r\n".toList
    ++ query env 1 "GET_COOCAL : Alpha, Delta, F_Error, A1, H1".toList
        "GET_COOCAL\r\n".toList
    ++ query env 2 "GET_COOCUR : Alpha_Cur, Delta_Cur, F_Error, Er_CurA, Er_CurH".toList
        "GET_COOCUR\r\n".toList
    ++ query env 3 "GET_METEOD : T, P, WL".toList "GET_METEOD\r\n".toList
    ++ logit "Setting RT-22 Antenna Rupors To Default Values For VLBI Experiment...".toList
    ++ logit (crcom " ".toList "\r\n".toList)
    ++ [.rt22msg (crcom " ".toList "\r\n".toList) (env.net 4)]
    ++ query env 5 "GET_RUPORS : FL_A, FL_H, FR_A, FR_H, ILRB, Error".toList
        "GET_RUPORS\r\n".toList
    ++ [.ionsor 0])

/-- The string `snm` of `case 1` after `strncpy(snm, fs->lsorna, 9)`: the name up to its
first NUL, at most 9 characters. -/
def snm (lsorna : List Char) : List Char := cstr (lsorna.take 9)

/-- The string `st0` of `case 1` sent as announce message, after
`strcat(snm, "\r\n"); strcat(st0, snm)`. -/
def st0 (lsorna : List Char) : List Char :=
  "SEND_MESSG New Source : ".toList ++ (snm lsorna ++ "\r\n".toList)

/-- The string `nsstr` of `case 1`: the new-source command line. -/
def nsstr (csp : List Char) (ra50 dec50 : CDouble) : List Char :=
  "NEW_SOURCE ".toList ++ snprintf 32 (printf_f 32 ra50) ++ csp
    ++ snprintf 32 (printf_f 32 dec50) ++ " 1 0 0 0 \r\n".toList

/-- The body of `case 1` (source= command). -/
def case1 (env : Env) (f : Frame) : Frame × List Event :=
  ({ f with ierr := 0, fs := { f.fs with ionsor := 0 } },
    logit "Commanding to a new source".toList
    ++ logit "Generated String :".toList
    ++ logit (st0 f.fs.lsorna)
    ++ logit "Answer From RT22MSG Function :".toList
    ++ exchLog env 0 (st0 f.fs.lsorna)
    ++ logit "Setting RT-22 Antenna To New Source...".toList
    ++ logit (nsstr f.csp f.fs.ra50 f.fs.dec50)
    ++ exchLog env 1 (nsstr f.csp f.fs.ra50 f.fs.dec50)
    ++ [.ionsor 0])

/-- The string `ofstr` of `case 2`: the offsets command line. -/
def ofstr (csp cend : List Char) (azoff eloff : CDouble) : List Char :=
  "SET_SHIFTS ".toList ++ snprintf 32 (printf_f 32 azoff) ++ csp
    ++ snprintf 32 (printf_f 32 eloff) ++ cend

/-- The body of `case 2` (offsets). -/
def case2 (env : Env) (f : Frame) : Frame × List Event :=
  ({ f with ierr := 0, fs := { f.fs with ionsor := 0 } },
    logit "Commanding new offsets".toList
    ++ logit "Setting RT-22 Antenna offsets...".toList
    ++ logit (ofstr f.csp f.cend f.fs.AZOFF f.fs.ELOFF)
    ++ exchLog env 0 (ofstr f.csp f.cend f.fs.AZOFF f.fs.ELOFF)
    ++ [.ionsor 0])

/-- The bodies of `case 3`, `case 5` and `case 7`, which differ in the logged text. -/
def caseOnsource (text : List Char) (f : Frame) : Frame × List Event :=
  ({ f with ierr := 0, fs := { f.fs with ionsor := 1 } }, logit text ++ [.ionsor 1])

/-- The loop `for (i=0; i<nrec; i++)` of `case 4`, with `n` iterations left and `i`
done; `nrecr` and `clasr` are the current values of these variables and the result gives
their final values and the events. In an iteration `cls_rcv` stores a message in `buf`,
`buf[nchar] = 0` ends it, the text is logged behind a fixed title, and
`cls_snd(&clasr, "ACK", 3, ...)` answers. The logged text is the one for a count
`0 <= nchar` and a message that fits `buf[80]` and, behind the title, `buf2[100]`; for
other counts the code stores outside `buf` and logs what the buffer held before. -/
def case4_loop (env : Env) (cls : Int) : Nat → Nat → Int → Int → Int × Int × List Event
  | 0, _, nrecr, clasr => (nrecr, clasr, [])
  | n + 1, i, nrecr, clasr =>
    let m := env.rcv i
    let buf := cstr (m.bytes.take m.nchar.toNat)
    let buf2 := "Received message for antenna: ".toList ++ buf
    let r := case4_loop env cls n (i + 1) (nrecr + 1) (env.snd i clasr)
    (r.1, r.2.1, [.cls_rcv cls 80, .logit buf2, .cls_snd clasr "ACK".toList 3] ++ r.2.2)

/-- The body of `case 4` (direct antenna= command): with `class == 0` it jumps to `End`
at once, otherwise it runs the loop `nrec` times (not at all when `nrec <= 0`). `ierr`
is not assigned. -/
def case4 (env : Env) (cls nrec : Int) (f : Frame) : Frame × List Event :=
  if cls = 0 then (f, [])
  else
    let r := case4_loop env cls nrec.toNat 0 f.nrecr f.clasr
    ({ f with nrecr := r.1, clasr := r.2.1 }, r.2.2)

/-- The body of `case 6` (reserved). -/
def case6 (f : Frame) : Frame × List Event :=
  ({ f with ierr := -1 }, logit "TBD focus control".toList)

/-- The bodies of `case 8`, `case 9` and `case 10`, which differ in the logged text. -/
def caseAccept (text : List Char) (f : Frame) : Frame × List Event :=
  ({ f with ierr := 0 }, logit text)

/-- The `default:` branch of the switch. -/
def caseDefault (f : Frame) : Frame × List Event :=
  ({ f with ierr := -1 }, logit "Impossible to reach".toList)

/-- The `switch (imode)` of `main`. Every branch ends at the label `End`, by `break` or
by `goto End`. -/
def switch (env : Env) (imode cls nrec : Int) (f : Frame) : Frame × List Event :=
  match imode with
  | 0 => case0 env f
  | 1 => case1 env f
  | 2 => case2 env f
  | 3 => caseOnsource "Checking onsource status, extended error logging".toList f
  | 4 => case4 env cls nrec f
  | 5 => caseOnsource "Checking onsource status, no error logging".toList f
  | 6 => case6 f
  | 7 => caseOnsource "Checking onsource status, log tracking data".toList f
  | 8 => caseAccept "Station dependent detectors access".toList f
  | 9 => caseAccept "Satellite tracking mode".toList f
  | 10 => caseAccept "Termination mode".toList f
  | _ => caseDefault f

/-- The statements at the label `End`: the five words of `ip` are stored, the fourth by
`memcpy(ip+3, "AN", 2)`, which replaces its first two bytes. -/
def End (ip : Ip) (f : Frame) : Ip :=
  { w0 := f.clasr, w1 := f.nrecr, w2 := f.ierr, w3 := "AN".toList ++ ip.w3.drop 2, w4 := 0 }

/-- The result of a pass: the variables kept for the next pass, the shared memory, the
array `ip` handed back to the host and the events of the pass. -/
structure Pass where
  loc : Locals
  fs : Fscom
  ip : Ip
  trace : List Event

/-- The pass from the return of `skd_wait` with the request `ip` up to the label `End`:
the frame reached there and the events so far. -/
def dispatch (loc : Locals) (fs : Fscom) (ip : Ip) (env : Env) : Frame × List Event :=
  let imode := ip.w0
  let cls := ip.w1
  let nrec := ip.w2
  let f : Frame :=
    { ierr := loc.ierr, nrecr := 0, clasr := 0, csp := loc.csp, cend := loc.cend, fs := fs }
  if imode < MINMODE ∨ imode > MAXMODE then ({ f with ierr := -1 }, [])
  else switch env imode cls nrec f

/-- One pass of `main`, from the return of `skd_wait` with the request `ip` to the jump
back to `Continue`. -/
def main_pass (loc : Locals) (fs : Fscom) (ip : Ip) (env : Env) : Pass :=
  let r := dispatch loc fs ip env
  let out := End ip r.1
  { loc := { ierr := r.1.ierr, csp := r.1.csp, cend := r.1.cend }
    fs := r.1.fs
    ip := out
    trace := r.2 ++ [.ip_out out] }

/-! ## Observations on a trace, and sample inputs -/

/-- The command lines handed to `rt22msg` during a pass, in order: one per device
exchange. -/
def exchanges : List Event → List (List Char)
  | [] => []
  | .rt22msg msg _ :: t => msg :: exchanges t
  | _ :: t => exchanges t

/-- What the network did during each call of `rt22msg` of a pass, in order. -/
def outcomes : List Event → List Net
  | [] => []
  | .rt22msg _ net :: t => net :: outcomes t
  | _ :: t => outcomes t

/-- A call of the host message primitives, as seen by the host: a read from a class
or a message sent with its character count. -/
inductive HostCall where
  | rcv (cls : Int)
  | ack (text : List Char) (nchars : Nat)
  deriving DecidableEq, Repr

/-- The calls of `cls_rcv` and `cls_snd` during a pass, in order. -/
def hostCalls : List Event → List HostCall
  | [] => []
  | .cls_rcv cls _ :: t => .rcv cls :: hostCalls t
  | .cls_snd _ text n :: t => .ack text n :: hostCalls t
  | _ :: t => hostCalls t

/-- The records stored into `ip` at `End` during a pass, in order. -/
def ipWrites : List Event → List Ip
  | [] => []
  | .ip_out ip :: t => ip :: ipWrites t
  | _ :: t => ipWrites t

/-- The values stored into `fs->ionsor` during a pass, in order. -/
def ionsorWrites : List Event → List Int
  | [] => []
  | .ionsor v :: t => v :: ionsorWrites t
  | _ :: t => ionsorWrites t

/-- The locals of a freshly started process whose stack is still zero filled: `csp` and
`cend` hold empty strings. -/
def freshLocals : Locals := { ierr := 0, csp := [], cend := [] }

/-- A sample shared memory: source `3C84`, right ascension 1.5 rad, declination
-0.25 rad, offsets 0.5 rad and 0, on-source flag set. -/
def sampleFs : Fscom :=
  { lsorna := "3C84      ".toList
    ra50 := .fin false 3 (-1)
    dec50 := .fin true 1 (-2)
    AZOFF := .fin false 1 (-1)
    ELOFF := .fin false 0 0
    ionsor := 1 }

/-- The request of mode `m` with class `cls` and record count `nrec`, the unused words
zero. -/
def request (m cls nrec : Int) : Ip :=
  { w0 := m, w1 := cls, w2 := nrec, w3 := [NUL, NUL, NUL, NUL], w4 := 0 }

/-- A device that cannot be reached: every connect fails; the host delivers the message
`hello` and allocates class 7. -/
def envDown : Env :=
  { net := fun _ => .connectFails
    rcv := fun _ => { nchar := 5, bytes := "hello".toList }
    snd := fun _ _ => 7 }

/-- A device that answers every command with `OK` and a line feed. -/
def envUp : Env :=
  { net := fun _ => .recvGives "OK\n".toList
    rcv := fun _ => { nchar := 5, bytes := "hello".toList }
    snd := fun _ _ => 7 }

/-! ## The loop of `main`, the memory behind `bf`, and the capacities of the buffers -/

/-- One call of `antcn` by the host: what the other programs did to the shared memory
while `main` waited in `skd_wait`, the request found in `ip`, and the responses of the
outside world during the pass. -/
structure Call where
  host : Fscom → Fscom
  ip : Ip
  env : Env

/-- The loop of `main` over a sequence of calls: each pass starts from the locals and
the shared memory left by the pass before. After `End` comes `goto Continue` whatever
the mode was; the loop has no exit. -/
def main_loop (loc : Locals) (fs : Fscom) : List Call → List Pass
  | [] => []
  | c :: cs =>
    let p := main_pass loc (c.host fs) c.ip c.env
    p :: main_loop p.loc p.fs cs

/-- The call with request `ip` and responses `env` that finds the shared memory equal to
`fs`. -/
def callWith (fs : Fscom) (ip : Ip) (env : Env) : Call :=
  { host := fun _ => fs, ip := ip, env := env }

/-- The C string found at `bf` when `rt22msg` returns from its last branch, given the
bytes `data` delivered by `recv` and the bytes `after` that lie behind the array in
memory. `bf` holds the first 512 received bytes, zeros behind them; `strlen(bf)` reads on
into `after` when no NUL lies inside the array, and `bf[strlen(bf) - 1] = 0` removes the
last character of what `strlen` has measured. -/
def bfText (data after : List Char) : List Char :=
  let bf := data.take 512 ++ List.replicate (512 - data.length) NUL
  (cstr (bf ++ after)).dropLast

/-- The outside world in which every exchange succeeds and the `k`-th one receives the
reply `r k`; `rcv` and `snd` are the responses of the host message classes. -/
def envReplies (r : Nat → List Char) (rcv : Nat → ClsMsg) (snd : Nat → Int → Int) : Env :=
  { net := fun k => .recvGives (r k), rcv := rcv, snd := snd }

/-- The calls of a pass that never return. `rt22msg` sets no timeout on its socket, so
`recv(sock, bf, 512, 0)` waits for ever when the device takes the command and sends
nothing; `cls_rcv(class, buf, sizeof(buf), &r1, &r2, dum, dum)` waits for ever when the
class holds no message. `net k` tells this of the `k`-th call of `rt22msg` of the pass,
`rcv k` of the `k`-th call of `cls_rcv`. -/
structure Hangs where
  net : Nat → Bool
  rcv : Nat → Bool

/-- The events of a pass that are reached when the calls marked in `h` never return, and
whether the pass gets to its end: the events of the pass are cut behind the first call
that hangs (the outcome noted with that call is then without meaning). `i` and `j` count
the calls of `rt22msg` and of `cls_rcv` met so far. -/
def reached (h : Hangs) : Nat → Nat → List Event → List Event × Bool
  | _, _, [] => ([], true)
  | i, j, .rt22msg msg net :: t =>
    if h.net i then ([.rt22msg msg net], false)
    else (.rt22msg msg net :: (reached h (i + 1) j t).1, (reached h (i + 1) j t).2)
  | i, j, .cls_rcv cls size :: t =>
    if h.rcv j then ([.cls_rcv cls size], false)
    else (.cls_rcv cls size :: (reached h i (j + 1) t).1, (reached h i (j + 1) t).2)
  | i, j, .logit text :: t => (.logit text :: (reached h i j t).1, (reached h i j t).2)
  | i, j, .cls_snd cls text n :: t =>
    (.cls_snd cls text n :: (reached h i j t).1, (reached h i j t).2)
  | i, j, .ionsor v :: t => (.ionsor v :: (reached h i j t).1, (reached h i j t).2)
  | i, j, .ip_out ip :: t => (.ip_out ip :: (reached h i j t).1, (reached h i j t).2)

/-- No call hangs. -/
def noHang : Hangs := { net := fun _ => false, rcv := fun _ => false }

/-- The first call of `rt22msg` of the pass never returns. -/
def hangFirstExchange : Hangs := { net := fun k => decide (k = 0), rcv := fun _ => false }

/-- The class number in `clasr` after `n` calls of `cls_snd`, the first of them made with
`clasr = 0`. -/
def clasrAfter (env : Env) : Nat → Int
  | 0 => 0
  | n + 1 => env.snd n (clasrAfter env n)

/-- The outgoing record as a function of the request: return class and record count are
0 except in mode 4 with a class other than 0, the error code is -1 for a mode outside
0..10 and for mode 6, the value of `ierr` on entry for mode 4 and 0 otherwise, the fourth
word starts with `AN`, the fifth is 0. -/
def recordFor (loc : Locals) (ip : Ip) (env : Env) : Ip :=
  { w0 := if ip.w0 = 4 ∧ ip.w1 ≠ 0 then clasrAfter env ip.w2.toNat else 0
    w1 := if ip.w0 = 4 ∧ ip.w1 ≠ 0 then (ip.w2.toNat : Int) else 0
    w2 := if ip.w0 < 0 ∨ ip.w0 > 10 ∨ ip.w0 = 6 then -1
          else if ip.w0 = 4 then loc.ierr else 0
    w3 := 'A' :: 'N' :: ip.w3.drop 2
    w4 := 0 }

/-- Whether every call of `rt22msg` of a pass kept its accesses inside `bf`. The string
returned then has at most 510 characters and its copy stays inside `conntest[512]` or
`rtsrc[512]`. -/
def traceInBounds : List Event → Bool
  | [] => true
  | .rt22msg msg net :: t => (rt22msg msg net).inBounds && traceInBounds t
  | _ :: t => traceInBounds t

/-- Whether a C string fits an array of `cap` bytes together with its terminating
NUL. -/
def fits (cap : Nat) (s : List Char) : Bool := decide (s.length + 1 ≤ cap)

/-- The string in `snm` after `strcat(snm, st1)` of `case 1`: the name and CRLF. -/
def snmCrlf (lsorna : List Char) : List Char := snm lsorna ++ "\r\n".toList

/-! ## Lemmas on the observations and on the loop of mode 4 -/

theorem exchanges_append (s t : List Event) :
    exchanges (s ++ t) = exchanges s ++ exchanges t := by
  induction s with
  | nil => rfl
  | cons e s ih => cases e <;> simp [exchanges, ih]

theorem hostCalls_append (s t : List Event) :
    hostCalls (s ++ t) = hostCalls s ++ hostCalls t := by
  induction s with
  | nil => rfl
  | cons e s ih => cases e <;> simp [hostCalls, ih]

theorem ipWrites_append (s t : List Event) :
    ipWrites (s ++ t) = ipWrites s ++ ipWrites t := by
  induction s with
  | nil => rfl
  | cons e s ih => cases e <;> simp [ipWrites, ih]

/-- The loop of mode 4 adds `n` to the record counter, makes `n` pairs of a read and an
acknowledgement, and neither calls `rt22msg` nor stores into `ip`. -/
theorem case4_loop_spec (env : Env) (cls : Int) (n : Nat) :
    ∀ (i : Nat) (nrecr clasr : Int),
      (case4_loop env cls n i nrecr clasr).1 = nrecr + n ∧
      hostCalls (case4_loop env cls n i nrecr clasr).2.2
        = (List.replicate n [HostCall.rcv cls, HostCall.ack "ACK".toList 3]).flatten ∧
      exchanges (case4_loop env cls n i nrecr clasr).2.2 = [] ∧
      ipWrites (case4_loop env cls n i nrecr clasr).2.2 = [] := by
  induction n with
  | zero => intro i nrecr clasr; simp [case4_loop, hostCalls, exchanges, ipWrites]
  | succ n ih =>
    intro i nrecr clasr
    obtain ⟨h1, h2, h3, h4⟩ := ih (i + 1) (nrecr + 1) (env.snd i clasr)
    refine ⟨?_, ?_, ?_, ?_⟩
    · simp only [case4_loop, h1]; push_cast; ring
    · simp [case4_loop, hostCalls, h2, List.replicate_succ]
    · simp [case4_loop, exchanges, h3]
    · simp [case4_loop, ipWrites, h4]

/-- Up to the label `End` nothing is stored into `ip`. -/
theorem dispatch_ipWrites (loc : Locals) (fs : Fscom) (ip : Ip) (env : Env) :
    ipWrites (dispatch loc fs ip env).2 = [] := by
  by_cases h : ip.w0 < MINMODE ∨ ip.w0 > MAXMODE
  · simp [dispatch, h, ipWrites]
  · have hd : dispatch loc fs ip env = switch env ip.w0 ip.w1 ip.w2
        { ierr := loc.ierr, nrecr := 0, clasr := 0, csp := loc.csp, cend := loc.cend,
          fs := fs } := by
      simp [dispatch, h]
    rw [hd]
    unfold switch
    split
    case neg.h_5 =>
      unfold case4
      split
      · rfl
      · exact (case4_loop_spec env _ _ _ _ _).2.2.2
    all_goals rfl

/-- The array filled by `snprintf(buf, size, ...)` holds at most `size - 1`
characters, whatever the converted text. -/
theorem snprintf_length_le (size : Nat) (text : List Char) :
    (snprintf size text).length ≤ size - 1 := by
  simp [snprintf, List.length_take]

/-- The six command lines of a mode-0 pass. -/
theorem mode0_exchanges (loc : Locals) (fs : Fscom) (cls nrec : Int) (w3 : List Char)
    (w4 : Int) (env : Env) :
    exchanges (main_pass loc fs ⟨0, cls, nrec, w3, w4⟩ env).trace
      = ["SEND_MESSG RT-22 Antenna Field System Client Is Connected.\r\n".toList,
          "GET_COOCAL\r\n".toList, "GET_COOCUR\r\n".toList, "GET_METEOD\r\n".toList,
          crcom " ".toList "\r\n".toList, "GET_RUPORS\r\n".toList] :=
  rfl

/-- The two command lines of a mode-1 pass: the announce line and the new-source line,
the latter built with the separator that `csp` holds on entry. -/
theorem mode1_exchanges (loc : Locals) (fs : Fscom) (cls nrec : Int) (w3 : List Char)
    (w4 : Int) (env : Env) :
    exchanges (main_pass loc fs ⟨1, cls, nrec, w3, w4⟩ env).trace
      = [st0 fs.lsorna, nsstr loc.csp fs.ra50 fs.dec50] :=
  rfl

/-- The command line of a mode-2 pass, built with the separator and the line end that
`csp` and `cend` hold on entry. -/
theorem mode2_exchanges (loc : Locals) (fs : Fscom) (cls nrec : Int) (w3 : List Char)
    (w4 : Int) (env : Env) :
    exchanges (main_pass loc fs ⟨2, cls, nrec, w3, w4⟩ env).trace
      = [ofstr loc.csp loc.cend fs.AZOFF fs.ELOFF] :=
  rfl

/-- A mode-0 pass leaves one space in `csp` and CRLF in `cend`. -/
theorem mode0_sets_separators (loc : Locals) (fs : Fscom) (cls nrec : Int)
    (w3 : List Char) (w4 : Int) (env : Env) :
    (main_pass loc fs ⟨0, cls, nrec, w3, w4⟩ env).loc.csp = " ".toList ∧
      (main_pass loc fs ⟨0, cls, nrec, w3, w4⟩ env).loc.cend = "\r\n".toList :=
  ⟨rfl, rfl⟩

/-- The text of the `SET_RUPORS` line of mode 0. -/
theorem crcom_text :
    crcom " ".toList "\r\n".toList =
      ("SET_RUPORS -0.0028119193504353087731395532 0.00256951250988054092500023628"
        ++ " 0.00281191935043530877313955329 0.00256951250988054092500023628 -1"
        ++ " 0.00019392547244381438693167085\r\n").toList := by
  set_option maxRecDepth 100000 in decide

/-! ## The claims -/

/-- C1: for every mode below 0 or above 10, whatever the class, the record count, the
locals, the shared memory and the outside world, the pass stores error code -1 in the
outgoing record and calls `rt22msg` not once. -/
theorem C1_illegal_mode (loc : Locals) (fs : Fscom) (ip : Ip) (env : Env)
    (h : ip.w0 < 0 ∨ ip.w0 > 10) :
    (main_pass loc fs ip env).ip.w2 = -1 ∧
      exchanges (main_pass loc fs ip env).trace = [] := by
  have h2 : ip.w0 < MINMODE ∨ ip.w0 > MAXMODE := h
  simp [main_pass, dispatch, End, h2, exchanges]

/-- Witness of C1 at mode 11, class 3, record count 2, with a reachable device. -/
theorem C1_illegal_mode_witness :
    (main_pass freshLocals sampleFs (request 11 3 2) envUp).ip.w2 = -1 ∧
      exchanges (main_pass freshLocals sampleFs (request 11 3 2) envUp).trace = [] :=
  C1_illegal_mode freshLocals sampleFs (request 11 3 2) envUp (Or.inr (by decide))

/-- C2, as the code has it: in modes 0, 1 and 2 the outgoing error code is 0 whatever the
network does during the exchanges (a reply, or a failure of socket, connect, send or
receive). -/
theorem C2_link_failure_error_code_zero (loc : Locals) (fs : Fscom) (ip : Ip) (env : Env)
    (h : ip.w0 = 0 ∨ ip.w0 = 1 ∨ ip.w0 = 2) :
    (main_pass loc fs ip env).ip.w2 = 0 := by
  obtain ⟨w0, w1, w2, w3, w4⟩ := ip
  simp only at h
  rcases h with h | h | h <;> subst h <;> rfl

/-- Witness of C2 (as the code has it) at mode 1 with an unreachable device. -/
theorem C2_link_failure_error_code_zero_witness :
    (main_pass freshLocals sampleFs (request 1 0 0) envDown).ip.w2 = 0 :=
  C2_link_failure_error_code_zero freshLocals sampleFs (request 1 0 0) envDown
    (Or.inr (Or.inl rfl))

/-- C2 fails as stated: in mode 2 with a device that refuses the connection, the one
exchange fails at connect, `rt22msg` returns its warning text, and the outgoing error
code is the success code 0. -/
theorem C2_connect_failure_counterexample :
    outcomes (main_pass freshLocals sampleFs (request 2 0 0) envDown).trace
        = [Net.connectFails] ∧
      (rt22msg (ofstr [] [] sampleFs.AZOFF sampleFs.ELOFF) Net.connectFails).text
        = "WARNING: Socket connection error!\n".toList ∧
      ¬ (main_pass freshLocals sampleFs (request 2 0 0) envDown).ip.w2 ≠ 0 := by
  decide

/-- C3, as the code has it: a mode-0 pass makes exactly six device exchanges, in the
order announce, `GET_COOCAL`, `GET_COOCUR`, `GET_METEOD`, `SET_RUPORS ...`, `GET_RUPORS`,
whatever the network does during each, and stores 0 into the on-source flag. -/
theorem C3_mode0_six_exchanges (loc : Locals) (fs : Fscom) (cls nrec : Int)
    (w3 : List Char) (w4 : Int) (env : Env) :
    exchanges (main_pass loc fs ⟨0, cls, nrec, w3, w4⟩ env).trace =
        ["SEND_MESSG RT-22 Antenna Field System Client Is Connected.\r\n".toList,
          "GET_COOCAL\r\n".toList, "GET_COOCUR\r\n".toList, "GET_METEOD\r\n".toList,
          crcom " ".toList "\r\n".toList, "GET_RUPORS\r\n".toList] ∧
      ionsorWrites (main_pass loc fs ⟨0, cls, nrec, w3, w4⟩ env).trace = [0] ∧
      (main_pass loc fs ⟨0, cls, nrec, w3, w4⟩ env).fs.ionsor = 0 :=
  ⟨rfl, rfl, rfl⟩

/-- C3 fails as stated: a mode-0 pass makes six device exchanges, not five. -/
theorem C3_mode0_counterexample :
    (exchanges (main_pass freshLocals sampleFs (request 0 0 0) envUp).trace).length = 6 ∧
      ¬ (exchanges (main_pass freshLocals sampleFs (request 0 0 0) envUp).trace).length
          = 5 := by
  decide

/-- C4 at a failing input: with right ascension 1.5 and declination -0.25 the
new-source line carries 29 and 28 digits after the decimal points, not 32, because
`snprintf(..., 32, "%.32f", ...)` keeps 31 characters. This holds right after a mode-0
pass; on a fresh stack, where `csp` was never set, the two fields are moreover not
separated. -/
theorem C4_new_source_line_truncated :
    exchanges (main_pass (main_pass freshLocals sampleFs (request 0 0 0) envUp).loc
        sampleFs (request 1 0 0) envUp).trace =
      ["SEND_MESSG New Source : 3C84     \r\n".toList,
        ("NEW_SOURCE 1.50000000000000000000000000000 -0.2500000000000000000000000000"
          ++ " 1 0 0 0 \r\n").toList] ∧
    exchanges (main_pass freshLocals sampleFs (request 1 0 0) envUp).trace =
      ["SEND_MESSG New Source : 3C84     \r\n".toList,
        ("NEW_SOURCE 1.50000000000000000000000000000-0.2500000000000000000000000000"
          ++ " 1 0 0 0 \r\n").toList] := by
  decide

/-- C5 at a failing input: a mode-2 pass on a fresh stack, where no mode-0 pass has set
`csp` and `cend`, sends the two offsets 0.5 and 0 with nothing between them and without
CRLF. -/
theorem C5_set_shifts_line_unset_separator :
    exchanges (main_pass freshLocals sampleFs (request 2 0 0) envUp).trace =
      ["SET_SHIFTS 0.500000000000000000000000000000.00000000000000000000000000000".toList]
    := by
  decide

/-- C6: for every class other than 0 and every record count `n`, a mode-4 pass makes
`n` times a read from that class followed by the 3-character answer `ACK`, calls
`rt22msg` not once, and returns the record count `n`. -/
theorem C6_mode4_reads_and_acknowledges (loc : Locals) (fs : Fscom) (cls : Int) (n : Nat)
    (w3 : List Char) (w4 : Int) (env : Env) (hc : cls ≠ 0) :
    hostCalls (main_pass loc fs ⟨4, cls, n, w3, w4⟩ env).trace
        = (List.replicate n [HostCall.rcv cls, HostCall.ack "ACK".toList 3]).flatten ∧
      exchanges (main_pass loc fs ⟨4, cls, n, w3, w4⟩ env).trace = [] ∧
      (main_pass loc fs ⟨4, cls, n, w3, w4⟩ env).ip.w1 = n := by
  have hd : dispatch loc fs ⟨4, cls, n, w3, w4⟩ env
      = ({ ierr := loc.ierr, nrecr := (case4_loop env cls n 0 0 0).1,
           clasr := (case4_loop env cls n 0 0 0).2.1, csp := loc.csp, cend := loc.cend,
           fs := fs }, (case4_loop env cls n 0 0 0).2.2) := by
    simp [dispatch, switch, case4, hc, MINMODE, MAXMODE]
  obtain ⟨h1, h2, h3, _⟩ := case4_loop_spec env cls n 0 0 0
  refine ⟨?_, ?_, ?_⟩
  · simp [main_pass, hd, hostCalls_append, h2, hostCalls]
  · simp [main_pass, hd, exchanges_append, h3, exchanges]
  · simp [main_pass, hd, End, h1]

/-- Witness of C6: class 3 and record count 2 give two reads, two answers and the
returned record count 2. -/
theorem C6_mode4_reads_and_acknowledges_witness :
    hostCalls (main_pass freshLocals sampleFs ⟨4, 3, (2 : Nat), [], 0⟩ envUp).trace
        = (List.replicate 2 [HostCall.rcv 3, HostCall.ack "ACK".toList 3]).flatten ∧
      exchanges (main_pass freshLocals sampleFs ⟨4, 3, (2 : Nat), [], 0⟩ envUp).trace = [] ∧
      (main_pass freshLocals sampleFs ⟨4, 3, (2 : Nat), [], 0⟩ envUp).ip.w1 = (2 : Nat) :=
  C6_mode4_reads_and_acknowledges freshLocals sampleFs 3 2 [] 0 envUp (by decide)

/-- C7, as the code has it: a mode-4 pass with class 0 reads and acknowledges nothing
and calls nothing else; its only event is the store of the outgoing record, with return
class 0, record count 0, the error code that `ierr` held on entry, the tag `AN` and a
last word 0. -/
theorem C7_mode4_class_zero_writes_record (loc : Locals) (fs : Fscom) (nrec : Int)
    (w3 : List Char) (w4 : Int) (env : Env) :
    (main_pass loc fs ⟨4, 0, nrec, w3, w4⟩ env).trace
        = [Event.ip_out ⟨0, 0, loc.ierr, 'A' :: 'N' :: w3.drop 2, 0⟩] ∧
      (main_pass loc fs ⟨4, 0, nrec, w3, w4⟩ env).ip
        = ⟨0, 0, loc.ierr, 'A' :: 'N' :: w3.drop 2, 0⟩ :=
  ⟨rfl, rfl⟩

/-- C7 fails as stated: in mode 4 with class 0 and record count 2 the outgoing record is
stored before the pass ends. -/
theorem C7_mode4_class_zero_counterexample :
    ipWrites (main_pass freshLocals sampleFs (request 4 0 2) envUp).trace
        = [⟨0, 0, 0, ['A', 'N', NUL, NUL], 0⟩] ∧
      ¬ ipWrites (main_pass freshLocals sampleFs (request 4 0 2) envUp).trace = [] := by
  decide

/-- When no call hangs, every event of a pass is reached and the pass gets to its
end. -/
theorem reached_of_no_hang (h : Hangs) (hnet : ∀ k, h.net k = false)
    (hrcv : ∀ k, h.rcv k = false) (t : List Event) :
    ∀ (i j : Nat), reached h i j t = (t, true) := by
  induction t with
  | nil => intro i j; rfl
  | cons e t ih =>
    intro i j
    cases e <;> simp [reached, hnet, hrcv, ih]

/-- The class number left by the loop of mode 4 is the one after its `n` calls of
`cls_snd`. -/
theorem case4_loop_clasr (env : Env) (cls : Int) (n : Nat) :
    ∀ (i : Nat) (nrecr : Int),
      (case4_loop env cls n i nrecr (clasrAfter env i)).2.1 = clasrAfter env (i + n) := by
  induction n with
  | zero => intro i nrecr; rfl
  | succ n ih =>
    intro i nrecr
    have h := ih (i + 1) (nrecr + 1)
    have e : i + 1 + n = i + (n + 1) := by omega
    rw [e] at h
    simpa [case4_loop, clasrAfter] using h

/-- The record that a pass hands back, as a function of the request. -/
theorem main_pass_record (loc : Locals) (fs : Fscom) (ip : Ip) (env : Env) :
    (main_pass loc fs ip env).ip = recordFor loc ip env := by
  obtain ⟨w0, w1, w2, w3, w4⟩ := ip
  by_cases h : w0 < MINMODE ∨ w0 > MAXMODE
  · have h1 : w0 < 0 ∨ w0 > 10 ∨ w0 = 6 := by
      rcases h with h | h
      · exact Or.inl h
      · exact Or.inr (Or.inl h)
    have h2 : ¬ (w0 = 4 ∧ w1 ≠ 0) := by
      intro hc
      have h4 := hc.1
      subst h4
      revert h
      decide
    simp [main_pass, dispatch, End, recordFor, h, h1, h2]
  · have hr : w0 = 0 ∨ w0 = 1 ∨ w0 = 2 ∨ w0 = 3 ∨ w0 = 4 ∨ w0 = 5 ∨ w0 = 6 ∨ w0 = 7
        ∨ w0 = 8 ∨ w0 = 9 ∨ w0 = 10 := by
      simp only [MINMODE, MAXMODE] at h
      omega
    rcases hr with hr | hr | hr | hr | hr | hr | hr | hr | hr | hr | hr
    case neg.inr.inr.inr.inr.inl =>
      subst hr
      by_cases hc : w1 = 0
      · subst hc; rfl
      · have hd : dispatch loc fs ⟨4, w1, w2, w3, w4⟩ env
            = ({ ierr := loc.ierr, nrecr := (case4_loop env w1 w2.toNat 0 0 0).1,
                 clasr := (case4_loop env w1 w2.toNat 0 0 0).2.1, csp := loc.csp,
                 cend := loc.cend, fs := fs }, (case4_loop env w1 w2.toNat 0 0 0).2.2) := by
          simp [dispatch, switch, case4, hc, MINMODE, MAXMODE]
        have h1 := (case4_loop_spec env w1 w2.toNat 0 0 0).1
        have h2 := case4_loop_clasr env w1 w2.toNat 0 0
        simp only [clasrAfter, Nat.zero_add] at h2
        simp [main_pass, End, recordFor, hd, hc, h1, h2]
    all_goals subst hr; rfl

/-- C8, as the code has it: when every call of `rt22msg` and of `cls_rcv` of the pass
returns, the pass gets to its end for every request, every content of the locals and of
the shared memory, and stores the outgoing record exactly once, as its last event: return
class, record count and error code as `recordFor` gives them, the two characters `AN` at
the start of the fourth word, and 0 in the fifth. -/
theorem C8_record_written_once_when_calls_return (loc : Locals) (fs : Fscom) (ip : Ip)
    (env : Env) (h : Hangs) (hnet : ∀ k, h.net k = false) (hrcv : ∀ k, h.rcv k = false) :
    reached h 0 0 (main_pass loc fs ip env).trace
        = ((main_pass loc fs ip env).trace, true) ∧
      ipWrites (main_pass loc fs ip env).trace = [recordFor loc ip env] ∧
      (main_pass loc fs ip env).trace.getLast?
        = some (Event.ip_out (recordFor loc ip env)) := by
  refine ⟨reached_of_no_hang h hnet hrcv _ 0 0, ?_, ?_⟩
  · rw [← main_pass_record loc fs ip env]
    simp [main_pass, ipWrites_append, dispatch_ipWrites, ipWrites]
  · rw [← main_pass_record loc fs ip env]
    simp [main_pass]

/-- Witness of C8 (as the code has it): mode 4 with class 3 and two records, no call
hanging; the record holds the class number 7 given by `cls_snd`, the count 2 and the
error code 0 found in `ierr`. -/
theorem C8_record_written_once_when_calls_return_witness :
    reached noHang 0 0 (main_pass freshLocals sampleFs (request 4 3 2) envUp).trace
        = ((main_pass freshLocals sampleFs (request 4 3 2) envUp).trace, true) ∧
      ipWrites (main_pass freshLocals sampleFs (request 4 3 2) envUp).trace
        = [recordFor freshLocals (request 4 3 2) envUp] ∧
      recordFor freshLocals (request 4 3 2) envUp = ⟨7, 2, 0, ['A', 'N', NUL, NUL], 0⟩ :=
  have h := C8_record_written_once_when_calls_return freshLocals sampleFs (request 4 3 2)
    envUp noHang (fun _ => rfl) (fun _ => rfl)
  ⟨h.1, h.2.1, by decide⟩

/-- C8 fails as stated: in mode 2, when the device takes the command and never answers,
the call of `rt22msg` does not return; the pass stops there, behind three log lines and
the call, and the outgoing record is never stored. -/
theorem C8_hanging_recv_counterexample :
    (reached hangFirstExchange 0 0
        (main_pass freshLocals sampleFs (request 2 0 0) envUp).trace).2 = false ∧
      ((reached hangFirstExchange 0 0
        (main_pass freshLocals sampleFs (request 2 0 0) envUp).trace).1).length = 4 ∧
      exchanges (reached hangFirstExchange 0 0
        (main_pass freshLocals sampleFs (request 2 0 0) envUp).trace).1
        = [ofstr [] [] sampleFs.AZOFF sampleFs.ELOFF] ∧
      ipWrites (reached hangFirstExchange 0 0
        (main_pass freshLocals sampleFs (request 2 0 0) envUp).trace).1 = [] := by
  decide

/-- C9: in each of the modes 3, 5 and 7, whatever the locals, the shared memory (so
also the former value of the on-source flag) and the outside world, the pass sets the
on-source flag to 1, calls `rt22msg` not once, and returns error code 0. -/
theorem C9_onsource_modes (loc : Locals) (fs : Fscom) (ip : Ip) (env : Env)
    (h : ip.w0 = 3 ∨ ip.w0 = 5 ∨ ip.w0 = 7) :
    (main_pass loc fs ip env).fs.ionsor = 1 ∧
      exchanges (main_pass loc fs ip env).trace = [] ∧
      (main_pass loc fs ip env).ip.w2 = 0 := by
  obtain ⟨w0, w1, w2, w3, w4⟩ := ip
  simp only at h
  rcases h with h | h | h <;> subst h <;> exact ⟨rfl, rfl, rfl⟩

/-- Witness of C9: mode 5 with the on-source flag cleared beforehand. -/
theorem C9_onsource_modes_witness :
    (main_pass freshLocals { sampleFs with ionsor := 0 } (request 5 0 0) envUp).fs.ionsor
        = 1 ∧
      exchanges (main_pass freshLocals { sampleFs with ionsor := 0 } (request 5 0 0)
        envUp).trace = [] ∧
      (main_pass freshLocals { sampleFs with ionsor := 0 } (request 5 0 0) envUp).ip.w2
        = 0 :=
  C9_onsource_modes freshLocals { sampleFs with ionsor := 0 } (request 5 0 0) envUp
    (Or.inr (Or.inl rfl))

/-- C10: in mode 6, whatever the class, the record count, the locals, the shared memory
and the outside world, the outgoing error code is -1 and `rt22msg` is called not
once. -/
theorem C10_mode6_rejected (loc : Locals) (fs : Fscom) (cls nrec : Int) (w3 : List Char)
    (w4 : Int) (env : Env) :
    (main_pass loc fs ⟨6, cls, nrec, w3, w4⟩ env).ip.w2 = -1 ∧
      exchanges (main_pass loc fs ⟨6, cls, nrec, w3, w4⟩ env).trace = [] :=
  ⟨rfl, rfl⟩

/-! ## Lemmas for the loop of `main`, `rt22msg` and the buffers -/

theorem ionsorWrites_append (s t : List Event) :
    ionsorWrites (s ++ t) = ionsorWrites s ++ ionsorWrites t := by
  induction s with
  | nil => rfl
  | cons e s ih => cases e <;> simp [ionsorWrites, ih]

/-- The loop of mode 4 does not store into `fs->ionsor`. -/
theorem case4_loop_ionsor (env : Env) (cls : Int) (n : Nat) :
    ∀ (i : Nat) (nrecr clasr : Int),
      ionsorWrites (case4_loop env cls n i nrecr clasr).2.2 = [] := by
  induction n with
  | zero => intro i nrecr clasr; rfl
  | succ n ih =>
    intro i nrecr clasr
    simp [case4_loop, ionsorWrites, ih]

/-- What a mode-4 pass reaches at `End`: `ierr` and the shared memory are as on entry. -/
theorem dispatch_mode4 (loc : Locals) (fs : Fscom) (cls nrec : Int) (w3 : List Char)
    (w4 : Int) (env : Env) :
    (dispatch loc fs ⟨4, cls, nrec, w3, w4⟩ env).1.ierr = loc.ierr ∧
      (dispatch loc fs ⟨4, cls, nrec, w3, w4⟩ env).1.fs = fs ∧
      ionsorWrites (dispatch loc fs ⟨4, cls, nrec, w3, w4⟩ env).2 = [] := by
  by_cases hc : cls = 0
  · subst hc; exact ⟨rfl, rfl, rfl⟩
  · have hd : dispatch loc fs ⟨4, cls, nrec, w3, w4⟩ env
        = ({ ierr := loc.ierr, nrecr := (case4_loop env cls nrec.toNat 0 0 0).1,
             clasr := (case4_loop env cls nrec.toNat 0 0 0).2.1, csp := loc.csp,
             cend := loc.cend, fs := fs }, (case4_loop env cls nrec.toNat 0 0 0).2.2) := by
      simp [dispatch, switch, case4, hc, MINMODE, MAXMODE]
    rw [hd]
    exact ⟨rfl, rfl, case4_loop_ionsor env cls _ 0 0 0⟩

/-- Every call of the sequence gets its pass. -/
theorem main_loop_length (cs : List Call) :
    ∀ (loc : Locals) (fs : Fscom), (main_loop loc fs cs).length = cs.length := by
  induction cs with
  | nil => intro loc fs; rfl
  | cons c cs ih => intro loc fs; simp [main_loop, ih]

/-- The error code of the outgoing record is the value that `ierr` keeps for the next
pass. -/
theorem main_pass_ierr (loc : Locals) (fs : Fscom) (ip : Ip) (env : Env) :
    (main_pass loc fs ip env).loc.ierr = (main_pass loc fs ip env).ip.w2 :=
  rfl

/-- A reply without NUL that leaves room in `bf` is its own C string. -/
theorem cstr_of_no_nul (r : List Char) (h : ∀ c ∈ r, c ≠ NUL) : cstr r = r := by
  unfold cstr
  rw [List.takeWhile_eq_self_iff]
  intro c hc
  simpa using h c hc

/-- For a reply `r` that is not empty, has no NUL and is shorter than the 512 bytes of
`bf`, `rt22msg` returns `r` without its last character, stays inside `bf` and closes the
socket. -/
theorem rt22msg_short_reply (msg r : List Char) (h0 : r ≠ []) (hlen : r.length < 512)
    (hnul : ∀ c ∈ r, c ≠ NUL) :
    (rt22msg msg (.recvGives r)).text = r.dropLast ∧
      (rt22msg msg (.recvGives r)).inBounds = true ∧
      (rt22msg msg (.recvGives r)).sys.getLast? = some Sys.close := by
  have ht : r.take 512 = r := List.take_of_length_le (Nat.le_of_lt hlen)
  have hpos : 0 < r.length := List.length_pos.mpr h0
  simp [rt22msg, ht, cstr_of_no_nul r hnul, hlen, hpos]

/-- The name with CRLF fits `snm[10]` exactly when the name has at most 7 characters,
and the announce line fits `st0[32]` exactly when it has at most 5. -/
theorem announce_fits_iff (lsorna : List Char) :
    (fits 10 (snmCrlf lsorna) = true ↔ (snm lsorna).length ≤ 7) ∧
      (fits 32 (st0 lsorna) = true ↔ (snm lsorna).length ≤ 5) := by
  constructor
  · simp only [fits, snmCrlf, decide_eq_true_eq, List.length_append]
    have : "\r\n".toList.length = 2 := rfl
    omega
  · simp only [fits, st0, decide_eq_true_eq, List.length_append]
    have h1 : "\r\n".toList.length = 2 := rfl
    have h2 : "SEND_MESSG New Source : ".toList.length = 24 := rfl
    omega

/-! ## The claims on modes 8 to 10, `rt22msg`, the state between passes and the buffers -/

/-- C11: in each of the modes 8, 9 and 10 the pass returns error code 0 and record count
0 and calls `rt22msg` not once, and the loop goes on: the calls that follow get their
passes, starting from what this pass left. -/
theorem C11_accept_modes (loc : Locals) (fs : Fscom) (ip : Ip) (env : Env)
    (h : ip.w0 = 8 ∨ ip.w0 = 9 ∨ ip.w0 = 10) :
    (main_pass loc fs ip env).ip.w2 = 0 ∧
      (main_pass loc fs ip env).ip.w1 = 0 ∧
      exchanges (main_pass loc fs ip env).trace = [] ∧
      ∀ (cs : List Call),
        main_loop loc fs (callWith fs ip env :: cs)
          = main_pass loc fs ip env
              :: main_loop (main_pass loc fs ip env).loc (main_pass loc fs ip env).fs cs ∧
        (main_loop loc fs (callWith fs ip env :: cs)).length = cs.length + 1 := by
  obtain ⟨w0, w1, w2, w3, w4⟩ := ip
  simp only at h
  refine ⟨?_, ?_, ?_, fun cs => ⟨rfl, main_loop_length _ _ _⟩⟩
  · rcases h with h | h | h <;> subst h <;> rfl
  · rcases h with h | h | h <;> subst h <;> rfl
  · rcases h with h | h | h <;> subst h <;> rfl

/-- Witness of C11: the termination mode 10, followed by a mode-3 call that is still
handled. -/
theorem C11_accept_modes_witness :
    (main_pass freshLocals sampleFs (request 10 0 0) envUp).ip.w2 = 0 ∧
      (main_pass freshLocals sampleFs (request 10 0 0) envUp).ip.w1 = 0 ∧
      exchanges (main_pass freshLocals sampleFs (request 10 0 0) envUp).trace = [] ∧
      (main_loop freshLocals sampleFs
        [callWith sampleFs (request 10 0 0) envUp,
          callWith sampleFs (request 3 0 0) envUp]).length = 2 :=
  have h := C11_accept_modes freshLocals sampleFs (request 10 0 0) envUp
    (Or.inr (Or.inr rfl))
  ⟨h.1, h.2.1, h.2.2.1, (h.2.2.2 [callWith sampleFs (request 3 0 0) envUp]).2⟩

/-- C12 at a failing input: when connect and send succeed and `recv` delivers zero
bytes, `rt22msg` takes its success branch: it stores a NUL at `bf[-1]`, outside the
array, closes the socket and returns the empty string, not the text
`WARNING: Receiving failed!` that it returns when `recv` fails. -/
theorem C12_zero_bytes_taken_as_reply :
    rt22msg "GET_COOCAL\r\n".toList (Net.recvGives [])
        = ⟨[], [Sys.socket, Sys.connect, Sys.send "GET_COOCAL\r\n".toList, Sys.recv 512,
            Sys.close], false⟩ ∧
      (rt22msg "GET_COOCAL\r\n".toList Net.recvFails).text
        = "WARNING: Receiving failed!\n".toList ∧
      (rt22msg "GET_COOCAL\r\n".toList (Net.recvGives [])).text
        ≠ (rt22msg "GET_COOCAL\r\n".toList Net.recvFails).text := by
  decide

/-- C13 at the failing inputs: when connect, send or recv fails, `rt22msg` returns
without calling `close` on the socket it created; only a received reply is followed by
`close`. -/
theorem C13_socket_left_open_on_failure :
    (rt22msg "GET_COOCAL\r\n".toList Net.connectFails).sys = [Sys.socket, Sys.connect] ∧
      (rt22msg "GET_COOCAL\r\n".toList Net.sendFails).sys
        = [Sys.socket, Sys.connect, Sys.send "GET_COOCAL\r\n".toList] ∧
      (rt22msg "GET_COOCAL\r\n".toList Net.recvFails).sys
        = [Sys.socket, Sys.connect, Sys.send "GET_COOCAL\r\n".toList, Sys.recv 512] ∧
      (rt22msg "GET_COOCAL\r\n".toList (Net.recvGives "OK\n".toList)).sys
        = [Sys.socket, Sys.connect, Sys.send "GET_COOCAL\r\n".toList, Sys.recv 512,
            Sys.close] := by
  decide

/-- C14 at a failing input: a reply of exactly 512 characters fills `bf` and leaves no
NUL inside it, so `strlen(bf)` reads past the array. With a character `y` and a NUL
behind the array, the string found at `bf` on return is the whole reply: none of its
characters is removed. -/
theorem C14_full_buffer_reply :
    (rt22msg "GET_COOCAL\r\n".toList (Net.recvGives (List.replicate 512 'x'))).inBounds
        = false ∧
      bfText (List.replicate 512 'x') ['y', NUL] = List.replicate 512 'x' ∧
      bfText (List.replicate 512 'x') ['y', NUL] ≠ (List.replicate 512 'x').dropLast := by
  set_option maxRecDepth 100000 in decide

/-- C15 at failing inputs: the same request, against the same shared memory and the same
responses, gives different results after different histories. A mode-4 request returns
error code -1 after a mode-6 call and 0 after a mode-3 call; a mode-2 request sends a
well-formed line after a mode-0 call and an unseparated, unterminated one as first
call. -/
theorem C15_history_dependence :
    ((main_loop freshLocals sampleFs
        [callWith sampleFs (request 6 0 0) envUp,
          callWith sampleFs (request 4 0 0) envUp]).map (fun p => p.ip)).getLast?
        = some ⟨0, 0, -1, ['A', 'N', NUL, NUL], 0⟩ ∧
      ((main_loop freshLocals sampleFs
        [callWith sampleFs (request 3 0 0) envUp,
          callWith sampleFs (request 4 0 0) envUp]).map (fun p => p.ip)).getLast?
        = some ⟨0, 0, 0, ['A', 'N', NUL, NUL], 0⟩ ∧
      ((main_loop freshLocals sampleFs
        [callWith sampleFs (request 0 0 0) envUp,
          callWith sampleFs (request 2 0 0) envUp]).map
            (fun p => exchanges p.trace)).getLast?
        = some [("SET_SHIFTS 0.50000000000000000000000000000"
            ++ " 0.00000000000000000000000000000\r\n").toList] ∧
      ((main_loop freshLocals sampleFs
        [callWith sampleFs (request 2 0 0) envUp]).map
            (fun p => exchanges p.trace)).getLast?
        = some [("SET_SHIFTS 0.50000000000000000000000000000"
            ++ "0.00000000000000000000000000000").toList] := by
  decide

/-- In modes 0, 1 and 2, when every reply received is not empty, has no NUL and is
shorter than the 512 bytes of `bf`, every call of `rt22msg` stays inside `bf`. -/
theorem short_replies_in_bounds (loc : Locals) (fs : Fscom) (ip : Ip)
    (r : Nat → List Char) (rcv : Nat → ClsMsg) (snd : Nat → Int → Int)
    (h : ip.w0 = 0 ∨ ip.w0 = 1 ∨ ip.w0 = 2)
    (hr : ∀ k, r k ≠ [] ∧ (r k).length < 512 ∧ ∀ c ∈ r k, c ≠ NUL) :
    traceInBounds (main_pass loc fs ip (envReplies r rcv snd)).trace = true := by
  have hb : ∀ (msg : List Char) (k : Nat),
      (rt22msg msg (Net.recvGives (r k))).inBounds = true :=
    fun msg k => (rt22msg_short_reply msg (r k) (hr k).1 (hr k).2.1 (hr k).2.2).2.1
  obtain ⟨w0, w1, w2, w3, w4⟩ := ip
  simp only at h
  rcases h with h | h | h <;> subst h
  · simp [main_pass, dispatch, switch, case0, query, exchLog, logit, traceInBounds,
      envReplies, MINMODE, MAXMODE, hb]
  · simp [main_pass, dispatch, switch, case1, exchLog, logit, traceInBounds,
      envReplies, MINMODE, MAXMODE, hb]
  · simp [main_pass, dispatch, switch, case2, exchLog, logit, traceInBounds,
      envReplies, MINMODE, MAXMODE, hb]

/-- In modes 0, 1 and 2, for two sequences of replies that keep `rt22msg` inside `bf`,
the outgoing record, the stores into the on-source flag, the shared memory and the
locals left behind, and the command lines sent are the same. -/
theorem short_replies_do_not_matter (loc : Locals) (fs : Fscom) (ip : Ip)
    (r1 r2 : Nat → List Char) (rcv : Nat → ClsMsg) (snd : Nat → Int → Int)
    (h : ip.w0 = 0 ∨ ip.w0 = 1 ∨ ip.w0 = 2)
    (h1 : ∀ k, r1 k ≠ [] ∧ (r1 k).length < 512 ∧ ∀ c ∈ r1 k, c ≠ NUL)
    (h2 : ∀ k, r2 k ≠ [] ∧ (r2 k).length < 512 ∧ ∀ c ∈ r2 k, c ≠ NUL) :
    (traceInBounds (main_pass loc fs ip (envReplies r1 rcv snd)).trace = true ∧
      traceInBounds (main_pass loc fs ip (envReplies r2 rcv snd)).trace = true) ∧
    (main_pass loc fs ip (envReplies r1 rcv snd)).ip
        = (main_pass loc fs ip (envReplies r2 rcv snd)).ip ∧
      ionsorWrites (main_pass loc fs ip (envReplies r1 rcv snd)).trace
        = ionsorWrites (main_pass loc fs ip (envReplies r2 rcv snd)).trace ∧
      (main_pass loc fs ip (envReplies r1 rcv snd)).fs
        = (main_pass loc fs ip (envReplies r2 rcv snd)).fs ∧
      (main_pass loc fs ip (envReplies r1 rcv snd)).loc
        = (main_pass loc fs ip (envReplies r2 rcv snd)).loc ∧
      exchanges (main_pass loc fs ip (envReplies r1 rcv snd)).trace
        = exchanges (main_pass loc fs ip (envReplies r2 rcv snd)).trace := by
  refine ⟨⟨short_replies_in_bounds loc fs ip r1 rcv snd h h1,
    short_replies_in_bounds loc fs ip r2 rcv snd h h2⟩, ?_⟩
  obtain ⟨w0, w1, w2, w3, w4⟩ := ip
  simp only at h
  rcases h with h | h | h <;> subst h
  · refine ⟨rfl, rfl, rfl, rfl, ?_⟩
    rw [mode0_exchanges, mode0_exchanges]
  · refine ⟨rfl, rfl, rfl, rfl, ?_⟩
    rw [mode1_exchanges, mode1_exchanges]
  · refine ⟨rfl, rfl, rfl, rfl, ?_⟩
    rw [mode2_exchanges, mode2_exchanges]

/-- C16 at a failing input: in mode 2 a successfully received reply of 512 characters
takes `rt22msg` outside `bf`, and the string it returns (the whole reply, when `y` and
NUL lie behind `bf`) needs 513 bytes, so `strcpy(conntest, ...)` writes past
`conntest[512]` inside the frame of `main` before `ierr`, `nrecr` and `clasr` are read at
`End`. With the reply `OK` every access stays in bounds. -/
theorem C16_full_buffer_reply_overruns_copy :
    traceInBounds (main_pass freshLocals sampleFs (request 2 0 0)
        (envReplies (fun _ => List.replicate 512 'x') envUp.rcv envUp.snd)).trace
        = false ∧
      (bfText (List.replicate 512 'x') ['y', NUL]).length + 1 = 513 ∧
      fits 512 (bfText (List.replicate 512 'x') ['y', NUL]) = false ∧
      traceInBounds (main_pass freshLocals sampleFs (request 2 0 0)
        (envReplies (fun _ => "OK\n".toList) envUp.rcv envUp.snd)).trace = true ∧
      fits 512 (bfText "OK\n".toList ['y', NUL]) = true := by
  set_option maxRecDepth 100000 in decide

/-- C17: a mode-4 pass, whatever the class (0 or not) and the record count, returns as
error code the value that `ierr` held on entry; after another pass that is the error
code which that pass returned. -/
theorem C17_mode4_keeps_error_code (loc : Locals) (fs : Fscom) (ip0 : Ip) (env0 : Env)
    (fs1 : Fscom) (cls nrec : Int) (w3 : List Char) (w4 : Int) (env : Env) :
    (main_pass loc fs1 ⟨4, cls, nrec, w3, w4⟩ env).ip.w2 = loc.ierr ∧
      (main_pass (main_pass loc fs ip0 env0).loc fs1 ⟨4, cls, nrec, w3, w4⟩ env).ip.w2
        = (main_pass loc fs ip0 env0).ip.w2 :=
  ⟨(dispatch_mode4 loc fs1 cls nrec w3 w4 env).1,
    (dispatch_mode4 (main_pass loc fs ip0 env0).loc fs1 cls nrec w3 w4 env).1⟩

/-- C18 at failing inputs: for the source name `3C84` held blank padded in the 10
bytes of `lsorna`, the name with CRLF needs 12 bytes of the 10 of `snm`, and the
announce line needs 36 bytes of the 32 of `st0`; for the 8-character name `0923+392`
followed by NUL they need 11 and 35 bytes. -/
theorem C18_announce_buffers_overflow :
    (snm sampleFs.lsorna = "3C84     ".toList ∧
      (snmCrlf sampleFs.lsorna).length + 1 = 12 ∧
      fits 10 (snmCrlf sampleFs.lsorna) = false ∧
      (st0 sampleFs.lsorna).length + 1 = 36 ∧
      fits 32 (st0 sampleFs.lsorna) = false) ∧
    (snm ("0923+392".toList ++ [NUL, NUL]) = "0923+392".toList ∧
      (snmCrlf ("0923+392".toList ++ [NUL, NUL])).length + 1 = 11 ∧
      fits 10 (snmCrlf ("0923+392".toList ++ [NUL, NUL])) = false ∧
      (st0 ("0923+392".toList ++ [NUL, NUL])).length + 1 = 35 ∧
      fits 32 (st0 ("0923+392".toList ++ [NUL, NUL])) = false) := by
  decide

/-- C19: a pass in mode 4, 6, 8, 9 or 10, or in a mode outside 0..10, makes no store
into the on-source flag and leaves the shared memory as it was; the passes in modes 0, 1
and 2 make the one store of 0 and those in modes 3, 5 and 7 the one store of 1. -/
theorem C19_onsource_frame (loc : Locals) (fs : Fscom) (ip : Ip) (env : Env)
    (h : ip.w0 = 4 ∨ ip.w0 = 6 ∨ ip.w0 = 8 ∨ ip.w0 = 9 ∨ ip.w0 = 10 ∨ ip.w0 < 0
      ∨ ip.w0 > 10) :
    ((main_pass loc fs ip env).fs = fs ∧
      ionsorWrites (main_pass loc fs ip env).trace = []) ∧
    (∀ (ip2 : Ip), ip2.w0 = 0 ∨ ip2.w0 = 1 ∨ ip2.w0 = 2 →
      ionsorWrites (main_pass loc fs ip2 env).trace = [0] ∧
        (main_pass loc fs ip2 env).fs.ionsor = 0) ∧
    (∀ (ip2 : Ip), ip2.w0 = 3 ∨ ip2.w0 = 5 ∨ ip2.w0 = 7 →
      ionsorWrites (main_pass loc fs ip2 env).trace = [1] ∧
        (main_pass loc fs ip2 env).fs.ionsor = 1) := by
  refine ⟨?_, ?_, ?_⟩
  · obtain ⟨w0, w1, w2, w3, w4⟩ := ip
    simp only at h
    rcases h with h | h | h | h | h | h | h
    · subst h
      obtain ⟨_, h2, h3⟩ := dispatch_mode4 loc fs w1 w2 w3 w4 env
      refine ⟨h2, ?_⟩
      simp [main_pass, ionsorWrites_append, h3, ionsorWrites]
    · subst h; exact ⟨rfl, rfl⟩
    · subst h; exact ⟨rfl, rfl⟩
    · subst h; exact ⟨rfl, rfl⟩
    · subst h; exact ⟨rfl, rfl⟩
    · have h2 : w0 < MINMODE ∨ w0 > MAXMODE := Or.inl h
      simp [main_pass, dispatch, h2, ionsorWrites]
    · have h2 : w0 < MINMODE ∨ w0 > MAXMODE := Or.inr h
      simp [main_pass, dispatch, h2, ionsorWrites]
  · intro ip2 h2
    obtain ⟨w0, w1, w2, w3, w4⟩ := ip2
    simp only at h2
    rcases h2 with h2 | h2 | h2 <;> subst h2 <;> exact ⟨rfl, rfl⟩
  · intro ip2 h2
    obtain ⟨w0, w1, w2, w3, w4⟩ := ip2
    simp only at h2
    rcases h2 with h2 | h2 | h2 <;> subst h2 <;> exact ⟨rfl, rfl⟩

/-- Witness of C19: mode 4 with class 3 and two records leaves the flag alone, mode 2
stores 0 and mode 7 stores 1. -/
theorem C19_onsource_frame_witness :
    ((main_pass freshLocals sampleFs (request 4 3 2) envUp).fs = sampleFs ∧
      ionsorWrites (main_pass freshLocals sampleFs (request 4 3 2) envUp).trace = []) ∧
    ionsorWrites (main_pass freshLocals sampleFs (request 2 0 0) envUp).trace = [0] ∧
    ionsorWrites (main_pass freshLocals sampleFs (request 7 0 0) envUp).trace = [1] :=
  have h := C19_onsource_frame freshLocals sampleFs (request 4 3 2) envUp (Or.inl rfl)
  ⟨h.1, (h.2.1 (request 2 0 0) (Or.inr (Or.inr rfl))).1,
    (h.2.2 (request 7 0 0) (Or.inr (Or.inr rfl))).1⟩

end Antcn
